import Mathlib

/-!
Verification development for the financial metrics engine of
`FINANCIAL.py` (a Streamlit dashboard backed by SQL queries).

The SQL queries of the source are shallowly embedded as pure Lean
functions over an in-memory snapshot of the database tables.  Conventions:

* Timestamps (`updated_at`, `created_at`, ...) are natural numbers counted
  in seconds; a SQL `DATE` value is a natural number counted in days, and
  `DATE(ts) = ts / 86400`.  The query parameters `:start_date` /
  `:end_date` are dates; PostgreSQL compares `timestamp BETWEEN :s AND :e`
  after casting the dates to the midnight timestamps `s * 86400` and
  `e * 86400`, and that is how the window predicates below are written.
* Monetary amounts are exact rationals (`ℚ`), matching SQL `numeric`.
* SQL `NULL` of a nullable column/aggregate is `Option.none`.
  `SUM`/`AVG`/`MIN` over an empty row set yield `none`; `COUNT` yields `0`.
* `LEFT JOIN tbl ON tbl.id = key` against a primary key is embedded as
  `List.find?` on the id (rows with no match get `none` columns, and a
  `WHERE` test on such a column fails, as SQL three-valued logic does).
* Presentation-only columns of the `base_data` CTE (customer name, cohort
  strings, week number, maturity dates, exchange rate, investment type)
  are never read by any aggregation and are omitted from the row type.
-/

namespace FinDash

/-- One row of the `transactions` table (the columns the queries read).
`metadata` is the transaction's metadata blob cast to text. -/
structure Transaction where
  id : Nat
  tx_type : String
  metadata : String
  amount : ℚ
  usd_amount : ℚ
  updated_at : Nat
  status : String
  provider_number : String
  plan_id : Option Nat
  investment_plan_id : Option Nat
deriving DecidableEq

/-- One row of the `plans` table. -/
structure Plan where
  id : Nat
  user_id : Nat
  plan_option : Option String
deriving DecidableEq

/-- One row of the `investment_plans` table. -/
structure InvestmentPlan where
  id : Nat
  user_id : Nat
  plan_option : Option String
  asset_id : Option Nat
deriving DecidableEq

/-- One row of the `assets` table. -/
structure Asset where
  id : Nat
  name : Option String
deriving DecidableEq

/-- One row of the `users` table.  `restricted` models the column compared
against `'false'` in the queries. -/
structure User where
  id : Nat
  restricted : Bool
  created_at : Nat
deriving DecidableEq

/-- The read-only database snapshot the queries run against. -/
structure DB where
  transactions : List Transaction
  plans : List Plan
  investment_plans : List InvestmentPlan
  users : List User
  assets : List Asset
deriving DecidableEq

/-- `LEFT JOIN plans p ON p.id = t.plan_id`. -/
def lookupPlanOf (db : DB) (t : Transaction) : Option Plan :=
  t.plan_id.bind (fun pid => db.plans.find? (fun p => p.id == pid))

/-- `LEFT JOIN investment_plans ip ON ip.id = t.investment_plan_id`. -/
def lookupIpOf (db : DB) (t : Transaction) : Option InvestmentPlan :=
  t.investment_plan_id.bind (fun iid => db.investment_plans.find? (fun ip => ip.id == iid))

/-- `COALESCE(p.user_id, ip.user_id)`. -/
def resolvedUserId (db : DB) (t : Transaction) : Option Nat :=
  match lookupPlanOf db t with
  | some p => some p.user_id
  | none =>
    match lookupIpOf db t with
    | some ip => some ip.user_id
    | none => none

/-- `LEFT JOIN users u ON u.id = COALESCE(p.user_id, ip.user_id)`. -/
def lookupUser (db : DB) (t : Transaction) : Option User :=
  (resolvedUserId db t).bind (fun uid => db.users.find? (fun u => u.id == uid))

/-- `LEFT JOIN assets a ON a.id = ip.asset_id` followed by reading `a.name`. -/
def assetNameOf (db : DB) (t : Transaction) : Option String :=
  ((lookupIpOf db t).bind (fun ip => ip.asset_id)).bind
    (fun aid => (db.assets.find? (fun a => a.id == aid)).bind (fun a => a.name))

/-- The `asset_type` CASE column:
`CASE WHEN t.investment_plan_id IS NOT NULL THEN a.name
      WHEN t.plan_id IS NOT NULL THEN p.plan_option ELSE NULL END`. -/
def assetTypeOf (db : DB) (t : Transaction) : Option String :=
  if t.investment_plan_id.isSome then assetNameOf db t
  else if t.plan_id.isSome then (lookupPlanOf db t).bind (fun p => p.plan_option)
  else none

/-- The metadata marker of the maintenance-fee override
(`ILIKE '%Monthly maintenance fee deduction%'`). -/
def maintMarker : String := "Monthly maintenance fee deduction"

/-- Whether `pat` occurs at the start of `hay` (character lists). -/
def startsWithChars : List Char → List Char → Bool
  | [], _ => true
  | _ :: _, [] => false
  | a :: as, b :: bs => a == b && startsWithChars as bs

/-- Whether `needle` occurs anywhere inside `hay` (character lists). -/
def occursIn (needle : List Char) : List Char → Bool
  | [] => startsWithChars needle []
  | b :: bs => startsWithChars needle (b :: bs) || occursIn needle bs

/-- ASCII lower-casing of a string, as a character list. -/
def lowerChars (s : String) : List Char := s.data.map Char.toLower

/-- `hay ILIKE '%' || pat || '%'`: case-insensitive substring test. -/
def containsCI (hay pat : String) : Bool :=
  occursIn (lowerChars pat) (lowerChars hay)

/-- The `transaction_type` CASE column (the transaction classifier):
`CASE WHEN t.metadata::text ILIKE '%Monthly maintenance fee deduction%'
      THEN 'maintenance_fee' ELSE t.tx_type END`. -/
def transactionTypeOf (t : Transaction) : String :=
  if containsCI t.metadata maintMarker then "maintenance_fee" else t.tx_type

/-- The `first_transactions` CTE of `load_general_metrics` /
`load_asset_metrics`: per customer, `MIN(t.updated_at)` over transactions
with `t.status = 'success'` — and, in the code, no other filter and no
window bound. -/
def firstTransactionDate (db : DB) (c : Nat) : Option Nat :=
  (db.transactions.filterMap (fun t =>
    if t.status == "success" && (resolvedUserId db t == some c) then some t.updated_at
    else none)).min?

/-- One row of the `base_data` CTE (aggregation-relevant columns). -/
structure BaseRow where
  transaction_id : Nat
  transaction_type : String
  asset_type : Option String
  customer_id : Nat
  first_transaction_date : Option Nat
  transaction_date : Nat
  ghs_amount : ℚ
  usd_amount : ℚ
deriving DecidableEq

/-- The `base_data` row built from transaction `t` and its resolved user
`u` (column list of the CTE's SELECT). -/
def mkBaseRow (db : DB) (t : Transaction) (u : User) : BaseRow :=
  { transaction_id := t.id
    transaction_type := transactionTypeOf t
    asset_type := assetTypeOf db t
    customer_id := u.id
    first_transaction_date := firstTransactionDate db u.id
    transaction_date := t.updated_at
    ghs_amount := t.amount
    usd_amount := t.usd_amount }

/-- The `base_data` CTE row produced by one transaction, `none` when the
`WHERE t.status = 'success' AND u.restricted = 'false' AND
t.provider_number != 'Flex Dollar'` filter rejects it (a transaction whose
user cannot be resolved fails the `u.restricted` test, as in SQL). -/
def baseRowOf (db : DB) (t : Transaction) : Option BaseRow :=
  match lookupUser db t with
  | none => none
  | some u =>
    if t.status == "success" && u.restricted == false && t.provider_number != "Flex Dollar" then
      some (mkBaseRow db t u)
    else none

/-- The full `base_data` CTE (shared by `load_general_metrics` and
`load_asset_metrics`; it carries no window filter). -/
def baseData (db : DB) : List BaseRow :=
  db.transactions.filterMap (baseRowOf db)

/-- Seconds per day: the factor between a date parameter and the midnight
timestamp PostgreSQL compares it as. -/
def secsPerDay : Nat := 86400

/-- The `deposits` CTE: `SELECT * FROM base_data WHERE transaction_type = 'deposit'`. -/
def deposits (db : DB) : List BaseRow :=
  (baseData db).filter (fun r => r.transaction_type == "deposit")

/-- The rows of `base_data` passing the outer
`WHERE transaction_date BETWEEN :start_date AND :end_date`. -/
def windowedRows (db : DB) (s e : Nat) : List BaseRow :=
  (baseData db).filter (fun r =>
    decide (s * secsPerDay ≤ r.transaction_date) && decide (r.transaction_date ≤ e * secsPerDay))

/-- The distinct `transaction_date`s of customer `c`'s rows in the
`deposits` CTE (used by the `depositors_summary` CTE of
`load_general_metrics`, which groups by customer only and is *not*
window-filtered). -/
def custDepositDates (db : DB) (c : Nat) : List Nat :=
  ((deposits db).filter (fun r => r.customer_id == c)).map (fun r => r.transaction_date)

/-- `depositors_summary.tx_days` = `COUNT(DISTINCT transaction_date)` over
all of customer `c`'s deposits (`0` stands for the SQL `NULL` of a customer
absent from `depositors_summary`; every filter on it then fails, matching
the `LEFT JOIN` semantics). -/
def txDays (db : DB) (c : Nat) : Nat :=
  (custDepositDates db c).dedup.length

/-- `depositors_summary.first_deposit_date` = `MIN(transaction_date)` over
all of customer `c`'s deposits. -/
def firstDepositDate (db : DB) (c : Nat) : Option Nat :=
  (custDepositDates db c).min?

/-- SQL `SUM` over non-null numeric values: `NULL` on the empty set. -/
def sqlSum (l : List ℚ) : Option ℚ :=
  if l.isEmpty then none else some l.sum

/-- SQL `AVG` over non-null numeric values: `NULL` on the empty set, never
a division fault (the divisor is only used on a nonempty list). -/
def sqlAvg (l : List ℚ) : Option ℚ :=
  if l.isEmpty then none else some (l.sum / l.length)

/-- The distinct customers counted by
`COUNT(DISTINCT ds.customer_id) FILTER (WHERE tx_days > 1)` in the final
SELECT of `load_general_metrics` (the rows scanned are the window-filtered
`base_data` rows left-joined with `depositors_summary USING (customer_id)`;
the `tx_days` of the join partner is window-unbounded). -/
def recurringCustomers (db : DB) (s e : Nat) : List Nat :=
  (((windowedRows db s e).filter (fun r => decide (1 < txDays db r.customer_id))).map
    (fun r => r.customer_id)).dedup

/-- The distinct customers counted by `COUNT(DISTINCT ds.customer_id)
FILTER (WHERE tx_days = 1 AND DATE(first_deposit_date) BETWEEN :start_date
AND :end_date)` in the final SELECT of `load_general_metrics`. -/
def newCustomers (db : DB) (s e : Nat) : List Nat :=
  (((windowedRows db s e).filter (fun r =>
      match firstDepositDate db r.customer_id with
      | none => false
      | some fd =>
        txDays db r.customer_id == 1 && decide (s ≤ fd / secsPerDay) &&
          decide (fd / secsPerDay ≤ e))).map (fun r => r.customer_id)).dedup

/-- The result row of `load_general_metrics`. -/
structure GeneralMetrics where
  asset_type_count : Nat
  deposit_count : Nat
  deposit_value_ghs : Option ℚ
  deposit_value_usd : Option ℚ
  withdrawal_count : Nat
  withdrawal_value_ghs : Option ℚ
  withdrawal_value_usd : Option ℚ
  aum_ghs : Option ℚ
  aum_usd : Option ℚ
  total_depositors : Nat
  total_withdrawers : Nat
  recurring_depositors : Nat
  new_depositors : Nat
  avg_deposit_value_ghs : Option ℚ
  avg_deposit_value_usd : Option ℚ
  avg_withdrawal_value_ghs : Option ℚ
  avg_withdrawal_value_usd : Option ℚ
deriving DecidableEq

/-- The final SELECT of `load_general_metrics`, field by field.
`aum_*` is `SUM(...) FILTER (deposit) - COALESCE(SUM(...) FILTER
(withdrawal), 0)`: a `NULL` deposit sum propagates, an absent withdrawal
sum is coalesced to `0`. -/
def generalMetrics (db : DB) (s e : Nat) : GeneralMetrics :=
  let w := windowedRows db s e
  let dep := w.filter (fun r => r.transaction_type == "deposit")
  let wd := w.filter (fun r => r.transaction_type == "withdrawal")
  { asset_type_count := (w.filterMap (fun r => r.asset_type)).dedup.length
    deposit_count := dep.length
    deposit_value_ghs := sqlSum (dep.map (fun r => r.ghs_amount))
    deposit_value_usd := sqlSum (dep.map (fun r => r.usd_amount))
    withdrawal_count := wd.length
    withdrawal_value_ghs := sqlSum (wd.map (fun r => r.ghs_amount))
    withdrawal_value_usd := sqlSum (wd.map (fun r => r.usd_amount))
    aum_ghs :=
      match sqlSum (dep.map (fun r => r.ghs_amount)) with
      | none => none
      | some d => some (d - (sqlSum (wd.map (fun r => r.ghs_amount))).getD 0)
    aum_usd :=
      match sqlSum (dep.map (fun r => r.usd_amount)) with
      | none => none
      | some d => some (d - (sqlSum (wd.map (fun r => r.usd_amount))).getD 0)
    total_depositors := (dep.map (fun r => r.customer_id)).dedup.length
    total_withdrawers := (wd.map (fun r => r.customer_id)).dedup.length
    recurring_depositors := (recurringCustomers db s e).length
    new_depositors := (newCustomers db s e).length
    avg_deposit_value_ghs := sqlAvg (dep.map (fun r => r.ghs_amount))
    avg_deposit_value_usd := sqlAvg (dep.map (fun r => r.usd_amount))
    avg_withdrawal_value_ghs := sqlAvg (wd.map (fun r => r.ghs_amount))
    avg_withdrawal_value_usd := sqlAvg (wd.map (fun r => r.usd_amount)) }

/-- The rows of one asset-type group in `load_asset_metrics`: the
window-filtered `base_data` rows with `bd.asset_type = g` (`GROUP BY
bd.asset_type`; SQL groups the `NULL` labels together, so `g = none` is a
group like any other). -/
def groupRows (db : DB) (s e : Nat) (g : Option String) : List BaseRow :=
  (windowedRows db s e).filter (fun r => r.asset_type == g)

/-- The group keys of `GROUP BY bd.asset_type` over the windowed rows. -/
def assetGroups (db : DB) (s e : Nat) : List (Option String) :=
  ((windowedRows db s e).map (fun r => r.asset_type)).dedup

/-- The distinct `transaction_date`s of customer `c`'s deposits with asset
type `a` (the `depositors_summary` CTE of `load_asset_metrics` groups by
`customer_id, asset_type`). -/
def custDepositDatesA (db : DB) (c : Nat) (a : String) : List Nat :=
  ((deposits db).filter (fun r => r.customer_id == c && r.asset_type == some a)).map
    (fun r => r.transaction_date)

/-- Per-(customer, asset) `tx_days` of `load_asset_metrics` (window-unbounded). -/
def txDaysA (db : DB) (c : Nat) (a : String) : Nat :=
  (custDepositDatesA db c a).dedup.length

/-- Per-(customer, asset) `first_deposit_date` of `load_asset_metrics`. -/
def firstDepositDateA (db : DB) (c : Nat) (a : String) : Option Nat :=
  (custDepositDatesA db c a).min?

/-- Customers counted by `COUNT(DISTINCT ds.customer_id) FILTER (WHERE
tx_days > 1)` inside the group `g` of `load_asset_metrics`.  The join is
`ON ds.customer_id = bd.customer_id AND ds.asset_type = bd.asset_type`;
for a `NULL` group label the equality is SQL-unknown, the join partner is
absent and the filter fails, so the `none` group counts nobody. -/
def recurringCustomersA (db : DB) (s e : Nat) : Option String → List Nat
  | none => []
  | some a =>
    (((groupRows db s e (some a)).filter (fun r =>
        decide (1 < txDaysA db r.customer_id a))).map (fun r => r.customer_id)).dedup

/-- Customers counted by `COUNT(DISTINCT ds.customer_id) FILTER (WHERE
tx_days = 1 AND DATE(ds.first_deposit_date) BETWEEN :start_date AND
:end_date)` inside the group `g` of `load_asset_metrics`. -/
def newCustomersA (db : DB) (s e : Nat) : Option String → List Nat
  | none => []
  | some a =>
    (((groupRows db s e (some a)).filter (fun r =>
        match firstDepositDateA db r.customer_id a with
        | none => false
        | some fd =>
          txDaysA db r.customer_id a == 1 && decide (s ≤ fd / secsPerDay) &&
            decide (fd / secsPerDay ≤ e))).map (fun r => r.customer_id)).dedup

/-- The asset-type labels carrying a fee rule in the `estimated_revenue`
CASE of `load_asset_metrics`. -/
def feeLabels : List String :=
  ["Arbitrage", "flex dollar savings", "Ladder Lock", "goal savings",
   "Risevest fixed income", "Risevest real estate", "Equity", "Mutual funds", "ETFs"]

/-- The `estimated_revenue` CASE of `load_asset_metrics`, evaluated on the
rows of group `g`; every branch coalesces its sums to `0` and the `ELSE`
branch yields `0`, so the result is total — no label can raise an error. -/
def estimatedRevenue (g : Option String) (rows : List BaseRow) : ℚ :=
  let depGhs := (sqlSum ((rows.filter (fun r => r.transaction_type == "deposit")).map
    (fun r => r.ghs_amount))).getD 0
  let depUsd := (sqlSum ((rows.filter (fun r => r.transaction_type == "deposit")).map
    (fun r => r.usd_amount))).getD 0
  let wdGhs := (sqlSum ((rows.filter (fun r => r.transaction_type == "withdrawal")).map
    (fun r => r.ghs_amount))).getD 0
  if g == some "Arbitrage" then (0.01 : ℚ) * (depGhs + wdGhs)
  else if g == some "flex dollar savings" then ((0.0475 : ℚ) / 12) * depUsd
  else if g == some "Ladder Lock" then ((0.06 : ℚ) / 12) * depUsd
  else if g == some "goal savings" then ((0.06 : ℚ) / 12) * depUsd
  else if g == some "Risevest fixed income" then ((0.02 : ℚ) / 12) * depUsd
  else if g == some "Risevest real estate" then ((0.04 : ℚ) / 12) * depUsd
  else if g == some "Equity" then (0.02 : ℚ) * depGhs
  else if g == some "Mutual funds" then (0.02 : ℚ) * depGhs
  else if g == some "ETFs" then (0.02 : ℚ) * depUsd
  else 0

/-- One result row of `load_asset_metrics`. -/
structure AssetRow where
  asset_type : Option String
  deposit_count : Nat
  deposit_value_ghs : Option ℚ
  deposit_value_usd : Option ℚ
  withdrawal_count : Nat
  withdrawal_value_ghs : Option ℚ
  withdrawal_value_usd : Option ℚ
  aum_ghs : Option ℚ
  aum_usd : Option ℚ
  total_depositors : Nat
  recurring_depositors : Nat
  new_depositors : Nat
  avg_deposit_value_ghs : Option ℚ
  avg_deposit_value_usd : Option ℚ
  avg_withdrawal_value_ghs : Option ℚ
  avg_withdrawal_value_usd : Option ℚ
  estimated_revenue : ℚ
  maintenance_fees_ghs : Option ℚ
  early_withdrawal_fees_usd : Option ℚ
deriving DecidableEq

/-- The `asset_metrics` CTE row for the group `g` of `load_asset_metrics`. -/
def assetMetricsRow (db : DB) (s e : Nat) (g : Option String) : AssetRow :=
  let rows := groupRows db s e g
  let dep := rows.filter (fun r => r.transaction_type == "deposit")
  let wd := rows.filter (fun r => r.transaction_type == "withdrawal")
  let mf := rows.filter (fun r => r.transaction_type == "maintenance_fee")
  let ew := rows.filter (fun r => r.transaction_type == "early_withdrawal")
  { asset_type := g
    deposit_count := dep.length
    deposit_value_ghs := sqlSum (dep.map (fun r => r.ghs_amount))
    deposit_value_usd := sqlSum (dep.map (fun r => r.usd_amount))
    withdrawal_count := wd.length
    withdrawal_value_ghs := sqlSum (wd.map (fun r => r.ghs_amount))
    withdrawal_value_usd := sqlSum (wd.map (fun r => r.usd_amount))
    aum_ghs :=
      match sqlSum (dep.map (fun r => r.ghs_amount)) with
      | none => none
      | some d => some (d - (sqlSum (wd.map (fun r => r.ghs_amount))).getD 0)
    aum_usd :=
      match sqlSum (dep.map (fun r => r.usd_amount)) with
      | none => none
      | some d => some (d - (sqlSum (wd.map (fun r => r.usd_amount))).getD 0)
    total_depositors := (dep.map (fun r => r.customer_id)).dedup.length
    recurring_depositors := (recurringCustomersA db s e g).length
    new_depositors := (newCustomersA db s e g).length
    avg_deposit_value_ghs := sqlAvg (dep.map (fun r => r.ghs_amount))
    avg_deposit_value_usd := sqlAvg (dep.map (fun r => r.usd_amount))
    avg_withdrawal_value_ghs := sqlAvg (wd.map (fun r => r.ghs_amount))
    avg_withdrawal_value_usd := sqlAvg (wd.map (fun r => r.usd_amount))
    estimated_revenue := estimatedRevenue g rows
    maintenance_fees_ghs := sqlSum (mf.map (fun r => r.ghs_amount))
    early_withdrawal_fees_usd :=
      (sqlSum (ew.map (fun r => r.usd_amount))).map (fun v => v * (0.025 : ℚ)) }

/-- The `asset_metrics` CTE of `load_asset_metrics`: one row per group of
`GROUP BY bd.asset_type` (before the final `ORDER BY`). -/
def assetMetrics (db : DB) (s e : Nat) : List AssetRow :=
  (assetGroups db s e).map (assetMetricsRow db s e)

/-- The `ORDER BY deposit_value_usd DESC NULLS LAST` comparison. -/
def assetRowLeB (a b : AssetRow) : Bool :=
  match a.deposit_value_usd, b.deposit_value_usd with
  | some x, some y => decide (y ≤ x)
  | none, some _ => false
  | _, _ => true

/-- `assetRowLeB` as a relation, for `List.insertionSort`. -/
def assetRowLe (a b : AssetRow) : Prop := assetRowLeB a b = true

instance : DecidableRel assetRowLe := fun a b => instDecidableEqBool (assetRowLeB a b) true

/-- The final result set of `load_asset_metrics`:
`SELECT * FROM asset_metrics ORDER BY deposit_value_usd DESC NULLS LAST`
(`ORDER BY` picks a sorted permutation; ties are in group order). -/
def assetMetricsSorted (db : DB) (s e : Nat) : List AssetRow :=
  List.insertionSort assetRowLe (assetMetrics db s e)

/-- The result list of `get_asset_types`: the distinct non-NULL values of
the `asset_type` CASE over transactions with `t.status = 'success'` and
`t.updated_at BETWEEN :start_date AND :end_date` — no user join, no
restriction filter, no provider filter.  (The query's `ORDER BY
asset_type` only permutes the list and is not modelled.) -/
def getAssetTypes (db : DB) (s e : Nat) : List String :=
  (db.transactions.filterMap (fun t =>
    if t.status == "success" && decide (s * secsPerDay ≤ t.updated_at) &&
        decide (t.updated_at ≤ e * secsPerDay) then
      assetTypeOf db t
    else none)).dedup

/-- One output row of `load_transaction_trend`. -/
structure TrendPoint where
  period : Nat
  tx_type : String
  total_amount : ℚ
deriving DecidableEq

/-- The rows scanned by `load_transaction_trend` before grouping, as
`(DATE_TRUNC(:granularity, t.updated_at), t.tx_type, t.amount)` triples.
`DATE_TRUNC` with the caller-chosen granularity (day/week/month) is
modelled by the abstract bucketing function `trunc`.  The query reads the
raw `t.tx_type` — it applies no maintenance-fee CASE. -/
def trendEntries (db : DB) (s e : Nat) (trunc : Nat → Nat) : List (Nat × String × ℚ) :=
  db.transactions.filterMap (fun t =>
    match lookupUser db t with
    | none => none
    | some u =>
      if t.status == "success" && u.restricted == false &&
          t.provider_number != "Flex Dollar" &&
          decide (s * secsPerDay ≤ t.updated_at) && decide (t.updated_at ≤ e * secsPerDay) then
        some (trunc t.updated_at, t.tx_type, t.amount)
      else none)

/-- Ascending-period ordering of trend points (`ORDER BY period ASC`). -/
def trendLe (a b : TrendPoint) : Prop := a.period ≤ b.period

instance : DecidableRel trendLe := fun a b => Nat.decLe a.period b.period

instance : IsTotal TrendPoint trendLe := ⟨fun a b => Nat.le_total a.period b.period⟩

instance : IsTrans TrendPoint trendLe := ⟨fun _ _ _ h1 h2 => Nat.le_trans h1 h2⟩

/-- The result of `load_transaction_trend`: `GROUP BY period, t.tx_type`
with `SUM(t.amount)`, `ORDER BY period ASC`. -/
def trendPoints (db : DB) (s e : Nat) (trunc : Nat → Nat) : List TrendPoint :=
  let entries := trendEntries db s e trunc
  let keys := (entries.map (fun en => (en.1, en.2.1))).dedup
  List.insertionSort trendLe (keys.map (fun k =>
    { period := k.1
      tx_type := k.2
      total_amount :=
        ((entries.filter (fun en => en.1 == k.1 && en.2.1 == k.2)).map
          (fun en => en.2.2)).sum }))

/-- Modelled from the spec's words, for comparison with the code path of
claim C1: the count of distinct transaction timestamps among customer
`c`'s deposits *that fall inside the window* `[s, e]`. -/
def specTxDaysInWindow (db : DB) (s e : Nat) (c : Nat) : Nat :=
  (((deposits db).filter (fun r =>
      r.customer_id == c && decide (s * secsPerDay ≤ r.transaction_date) &&
        decide (r.transaction_date ≤ e * secsPerDay))).map
    (fun r => r.transaction_date)).dedup.length

/-- Modelled from the spec's words, for comparison with the code path of
claim C2: `MIN(updated_at)` over the customer's transactions satisfying
the full inclusion predicate (`status = 'success'`, owning customer not
restricted, provider ≠ `'Flex Dollar'`), with no window bound. -/
def specFirstTransactionDate (db : DB) (c : Nat) : Option Nat :=
  (db.transactions.filterMap (fun t =>
    match lookupUser db t with
    | none => none
    | some u =>
      if t.status == "success" && u.restricted == false &&
          t.provider_number != "Flex Dollar" && (resolvedUserId db t == some c) then
        some t.updated_at
      else none)).min?

/-! ### Concrete database snapshots used by counterexamples and witnesses -/

/-- A deposit transaction template used by the example snapshots. -/
def mkDeposit (i : Nat) (ts : Nat) : Transaction :=
  { id := i, tx_type := "deposit", metadata := "", amount := 100, usd_amount := 10,
    updated_at := ts, status := "success", provider_number := "MTN",
    plan_id := some 1, investment_plan_id := none }

/-- A withdrawal transaction template used by the example snapshots. -/
def mkWithdrawal (i : Nat) (ts : Nat) : Transaction :=
  { id := i, tx_type := "withdrawal", metadata := "", amount := 40, usd_amount := 4,
    updated_at := ts, status := "success", provider_number := "MTN",
    plan_id := some 1, investment_plan_id := none }

/-- An unrestricted user with id 1. -/
def user1 : User := { id := 1, restricted := false, created_at := 0 }

/-- A simple plan with id 1 owned by user 1, labelled `goal savings`. -/
def plan1 : Plan := { id := 1, user_id := 1, plan_option := some "goal savings" }

/-- C1 snapshot: customer 1 deposits at timestamp 86400 (day 1, before the
window `[2, 3]`) and at 173300 (day 2, inside the window). -/
def exDB1 : DB :=
  { transactions := [mkDeposit 1 86400, mkDeposit 2 173300],
    plans := [plan1], investment_plans := [], users := [user1], assets := [] }

/-- C2 snapshot: customer 1's earliest success transaction (timestamp 100)
is from the excluded provider `Flex Dollar`; a later one (timestamp 200)
is not. -/
def exDB2 : DB :=
  { transactions :=
      [{ id := 1, tx_type := "deposit", metadata := "", amount := 5, usd_amount := 1,
         updated_at := 100, status := "success", provider_number := "Flex Dollar",
         plan_id := some 1, investment_plan_id := none },
       mkDeposit 2 200],
    plans := [plan1], investment_plans := [], users := [user1], assets := [] }

/-- C3 snapshot (recurring side): customer 1 has two out-of-window deposit
timestamps (86400, 130000) and one in-window withdrawal (172810). -/
def exDB3 : DB :=
  { transactions := [mkDeposit 1 86400, mkDeposit 2 130000, mkWithdrawal 3 172810],
    plans := [plan1], investment_plans := [], users := [user1], assets := [] }

/-- C3 snapshot (new side): customer 1's only deposit is at 259300 — on
day 3 but after the midnight cutoff `3 * 86400 = 259200` of the window
`[2, 3]` — plus one in-window withdrawal. -/
def exDB3b : DB :=
  { transactions := [mkDeposit 1 259300, mkWithdrawal 2 172810],
    plans := [plan1], investment_plans := [], users := [user1], assets := [] }

/-- C5 snapshot: an in-window raw `withdrawal` whose metadata contains the
maintenance-fee marker (with different letter case). -/
def exTx5 : Transaction :=
  { id := 1, tx_type := "withdrawal",
    metadata := "note: MONTHLY MAINTENANCE FEE DEDUCTION for March",
    amount := 3, usd_amount := 1, updated_at := 172900, status := "success",
    provider_number := "MTN", plan_id := some 1, investment_plan_id := none }

/-- C5 snapshot database. -/
def exDB5 : DB :=
  { transactions := [exTx5], plans := [plan1], investment_plans := [],
    users := [user1], assets := [] }

/-- C6 snapshot: a deposit on a plan labelled `Bitcoin`, a label absent
from the fee table. -/
def exDB6 : DB :=
  { transactions := [mkDeposit 1 172900],
    plans := [{ id := 1, user_id := 1, plan_option := some "Bitcoin" }],
    investment_plans := [], users := [user1], assets := [] }

/-- C7 snapshot: an in-window deposit linked to an investment plan with no
asset, giving an absent (`NULL`) asset-type label. -/
def exDB7 : DB :=
  { transactions :=
      [{ id := 1, tx_type := "deposit", metadata := "", amount := 100, usd_amount := 10,
         updated_at := 172900, status := "success", provider_number := "MTN",
         plan_id := none, investment_plan_id := some 1 }],
    plans := [],
    investment_plans := [{ id := 1, user_id := 1, plan_option := some "flexi", asset_id := none }],
    users := [user1], assets := [] }

/-- C8 snapshot transaction: raw type `withdrawal`, metadata containing
the maintenance-fee marker. -/
def exTx8 : Transaction :=
  { id := 1, tx_type := "withdrawal",
    metadata := "Monthly maintenance fee deduction",
    amount := 5, usd_amount := 1, updated_at := 172900, status := "success",
    provider_number := "MTN", plan_id := some 1, investment_plan_id := none }

/-- C8 snapshot database. -/
def exDB8 : DB :=
  { transactions := [exTx8], plans := [plan1], investment_plans := [],
    users := [user1], assets := [] }

/-- C9 snapshot: the only transaction in the window has `status = 'failed'`,
so the window holds zero qualifying transactions. -/
def exDB9 : DB :=
  { transactions :=
      [{ id := 1, tx_type := "deposit", metadata := "", amount := 100, usd_amount := 10,
         updated_at := 172900, status := "failed", provider_number := "MTN",
         plan_id := some 1, investment_plan_id := none }],
    plans := [plan1], investment_plans := [], users := [user1], assets := [] }

/-- C10 snapshot: a success in-window deposit on an `Equity` plan owned by
a *restricted* user — listed by `get_asset_types` but filtered out of
`load_asset_metrics`. -/
def exDB10 : DB :=
  { transactions := [mkDeposit 1 172900],
    plans := [{ id := 1, user_id := 1, plan_option := some "Equity" }],
    investment_plans := [],
    users := [{ id := 1, restricted := true, created_at := 0 }], assets := [] }

/-! ### Helper lemmas -/

theorem minNat_eq_some_iff (l : List Nat) (d : Nat) :
    l.min? = some d ↔ d ∈ l ∧ ∀ x ∈ l, d ≤ x := by
  have hmo : ∀ a b : Nat, min a b = a ∨ min a b = b := by
    intro a b
    rw [Nat.min_def]
    split
    · exact Or.inl rfl
    · exact Or.inr rfl
  rw [List.min?_eq_some_iff (fun a : Nat => Nat.le_refl a) hmo
    (fun a b c : Nat => Nat.le_min)]

theorem one_lt_dedup_length_iff {α : Type} [DecidableEq α] (l : List α) :
    1 < l.dedup.length ↔ ∃ x ∈ l, ∃ y ∈ l, x ≠ y := by
  constructor
  · intro h
    rcases hL : l.dedup with _ | ⟨a, rest⟩
    · rw [hL] at h; simp at h
    · rcases rest with _ | ⟨b, t⟩
      · rw [hL] at h; simp at h
      · have hnd := List.nodup_dedup l
        rw [hL] at hnd
        refine ⟨a, ?_, b, ?_, ?_⟩
        · exact List.mem_dedup.mp (by rw [hL]; exact List.mem_cons_self a (b :: t))
        · exact List.mem_dedup.mp
            (by rw [hL]; exact List.mem_cons_of_mem a (List.mem_cons_self b t))
        · intro hab
          exact (List.nodup_cons.mp hnd).1 (hab ▸ List.mem_cons_self b t)
  · rintro ⟨x, hx, y, hy, hxy⟩
    by_contra h
    push_neg at h
    have hx' : x ∈ l.dedup := List.mem_dedup.mpr hx
    have hy' : y ∈ l.dedup := List.mem_dedup.mpr hy
    rcases hL : l.dedup with _ | ⟨a, rest⟩
    · rw [hL] at hx'; cases hx'
    · rcases rest with _ | ⟨b, t⟩
      · rw [hL] at hx' hy'
        rcases List.mem_singleton.mp hx' with rfl
        rcases List.mem_singleton.mp hy' with rfl
        exact hxy rfl
      · rw [hL] at h; simp at h

theorem dedup_length_eq_one_iff {α : Type} [DecidableEq α] (l : List α) :
    l.dedup.length = 1 ↔ ∃ a, a ∈ l ∧ ∀ x ∈ l, x = a := by
  constructor
  · intro h
    rcases hL : l.dedup with _ | ⟨a, rest⟩
    · rw [hL] at h; simp at h
    · rcases rest with _ | ⟨b, t⟩
      · refine ⟨a, List.mem_dedup.mp (by rw [hL]; exact List.mem_singleton_self a), ?_⟩
        intro x hx
        have hx' : x ∈ l.dedup := List.mem_dedup.mpr hx
        rw [hL] at hx'
        exact List.mem_singleton.mp hx'
      · rw [hL] at h; simp at h
  · rintro ⟨a, ha, hall⟩
    have h1 : ¬ 1 < l.dedup.length := by
      rw [one_lt_dedup_length_iff]
      rintro ⟨x, hx, y, hy, hxy⟩
      exact hxy ((hall x hx).trans (hall y hy).symm)
    have h2 : 0 < l.dedup.length :=
      List.length_pos.mpr (fun hnil => by
        have ha' : a ∈ l.dedup := List.mem_dedup.mpr ha
        rw [hnil] at ha'; cases ha')
    omega

theorem baseRowOf_eq_some_iff (db : DB) (t : Transaction) (r : BaseRow) :
    baseRowOf db t = some r ↔
      ∃ u, lookupUser db t = some u ∧ t.status = "success" ∧ u.restricted = false ∧
        t.provider_number ≠ "Flex Dollar" ∧ r = mkBaseRow db t u := by
  cases hu : lookupUser db t with
  | none => simp [baseRowOf, hu]
  | some u =>
    simp only [baseRowOf, hu]
    constructor
    · intro h
      by_cases hc :
          (t.status == "success" && u.restricted == false &&
            t.provider_number != "Flex Dollar") = true
      · rw [if_pos hc] at h
        have hc' := hc
        simp only [Bool.and_eq_true, beq_iff_eq, bne_iff_ne] at hc'
        exact ⟨u, rfl, hc'.1.1, hc'.1.2, hc'.2, (Option.some.inj h).symm⟩
      · rw [if_neg hc] at h
        cases h
    · rintro ⟨u', hu', hs, hr, hp, rfl⟩
      have huu : u = u' := Option.some.inj hu'
      subst huu
      rw [if_pos (by simp [hs, hr, hp])]

theorem mem_baseData_iff (db : DB) (r : BaseRow) :
    r ∈ baseData db ↔ ∃ t ∈ db.transactions, baseRowOf db t = some r := by
  unfold baseData
  rw [List.mem_filterMap]

theorem mem_windowedRows_iff (db : DB) (s e : Nat) (r : BaseRow) :
    r ∈ windowedRows db s e ↔
      r ∈ baseData db ∧ s * secsPerDay ≤ r.transaction_date ∧
        r.transaction_date ≤ e * secsPerDay := by
  unfold windowedRows
  rw [List.mem_filter]
  simp

theorem mem_custDepositDates_iff (db : DB) (c : Nat) (x : Nat) :
    x ∈ custDepositDates db c ↔
      ∃ r ∈ deposits db, r.customer_id = c ∧ r.transaction_date = x := by
  unfold custDepositDates
  rw [List.mem_map]
  constructor
  · rintro ⟨r, hr, rfl⟩
    have hr' := List.mem_filter.mp hr
    exact ⟨r, hr'.1, by simpa using hr'.2, rfl⟩
  · rintro ⟨r, hr, hc, rfl⟩
    exact ⟨r, List.mem_filter.mpr ⟨hr, by simpa using hc⟩, rfl⟩

theorem mem_recurringCustomers_iff (db : DB) (s e : Nat) (c : Nat) :
    c ∈ recurringCustomers db s e ↔
      (∃ r ∈ windowedRows db s e, r.customer_id = c) ∧ 1 < txDays db c := by
  unfold recurringCustomers
  rw [List.mem_dedup, List.mem_map]
  constructor
  · rintro ⟨r, hr, rfl⟩
    have hr' := List.mem_filter.mp hr
    exact ⟨⟨r, hr'.1, rfl⟩, of_decide_eq_true hr'.2⟩
  · rintro ⟨⟨r, hr, rfl⟩, htx⟩
    exact ⟨r, List.mem_filter.mpr ⟨hr, decide_eq_true htx⟩, rfl⟩

theorem mem_newCustomers_iff (db : DB) (s e : Nat) (c : Nat) :
    c ∈ newCustomers db s e ↔
      (∃ r ∈ windowedRows db s e, r.customer_id = c) ∧
        ∃ fd, firstDepositDate db c = some fd ∧ txDays db c = 1 ∧
          s ≤ fd / secsPerDay ∧ fd / secsPerDay ≤ e := by
  unfold newCustomers
  rw [List.mem_dedup, List.mem_map]
  constructor
  · rintro ⟨r, hr, rfl⟩
    have hr' := List.mem_filter.mp hr
    refine ⟨⟨r, hr'.1, rfl⟩, ?_⟩
    have h2 := hr'.2
    cases hfd : firstDepositDate db r.customer_id with
    | none => rw [hfd] at h2; cases h2
    | some fd =>
      rw [hfd] at h2
      simp only [Bool.and_eq_true, beq_iff_eq, decide_eq_true_eq] at h2
      exact ⟨fd, rfl, h2.1.1, h2.1.2, h2.2⟩
  · rintro ⟨⟨r, hr, rfl⟩, fd, hfd, htx, hs, he⟩
    refine ⟨r, List.mem_filter.mpr ⟨hr, ?_⟩, rfl⟩
    rw [hfd]
    simp [htx, hs, he]

theorem sqlSum_of_ne_nil (l : List ℚ) (h : l ≠ []) : sqlSum l = some l.sum := by
  unfold sqlSum
  rw [if_neg (by simpa using h)]

theorem mem_recurringCustomersA_iff (db : DB) (s e : Nat) (a : String) (c : Nat) :
    c ∈ recurringCustomersA db s e (some a) ↔
      (∃ r ∈ groupRows db s e (some a), r.customer_id = c) ∧ 1 < txDaysA db c a := by
  unfold recurringCustomersA
  rw [List.mem_dedup, List.mem_map]
  constructor
  · rintro ⟨r, hr, rfl⟩
    have hr' := List.mem_filter.mp hr
    exact ⟨⟨r, hr'.1, rfl⟩, of_decide_eq_true hr'.2⟩
  · rintro ⟨⟨r, hr, rfl⟩, htx⟩
    exact ⟨r, List.mem_filter.mpr ⟨hr, decide_eq_true htx⟩, rfl⟩

theorem mem_newCustomersA_iff (db : DB) (s e : Nat) (a : String) (c : Nat) :
    c ∈ newCustomersA db s e (some a) ↔
      (∃ r ∈ groupRows db s e (some a), r.customer_id = c) ∧
        ∃ fd, firstDepositDateA db c a = some fd ∧ txDaysA db c a = 1 ∧
          s ≤ fd / secsPerDay ∧ fd / secsPerDay ≤ e := by
  unfold newCustomersA
  rw [List.mem_dedup, List.mem_map]
  constructor
  · rintro ⟨r, hr, rfl⟩
    have hr' := List.mem_filter.mp hr
    refine ⟨⟨r, hr'.1, rfl⟩, ?_⟩
    have h2 := hr'.2
    cases hfd : firstDepositDateA db r.customer_id a with
    | none => rw [hfd] at h2; cases h2
    | some fd =>
      rw [hfd] at h2
      simp only [Bool.and_eq_true, beq_iff_eq, decide_eq_true_eq] at h2
      exact ⟨fd, rfl, h2.1.1, h2.1.2, h2.2⟩
  · rintro ⟨⟨r, hr, rfl⟩, fd, hfd, htx, hs, he⟩
    refine ⟨r, List.mem_filter.mpr ⟨hr, ?_⟩, rfl⟩
    rw [hfd]
    simp [htx, hs, he]

theorem assetMetricsRow_asset_type (db : DB) (s e : Nat) (g : Option String) :
    (assetMetricsRow db s e g).asset_type = g := rfl

theorem assetMetricsRow_deposit_count (db : DB) (s e : Nat) (g : Option String) :
    (assetMetricsRow db s e g).deposit_count =
      ((groupRows db s e g).filter (fun r => r.transaction_type == "deposit")).length := rfl

/-! ### Claim theorems -/

/-- Claim C4: for every window and every grouping (the unpartitioned
`load_general_metrics` result and every per-asset-type group of
`load_asset_metrics`), the reported AUM equals the deposit sum minus the
withdrawal sum in the same currency, with an absent withdrawal sum treated
as `0` (and a `NULL` deposit sum propagating, as `Option.map` does), for
both GHS and USD. -/
theorem c4_aum_is_deposits_minus_withdrawals (db : DB) (s e : Nat) (g : Option String) :
    (generalMetrics db s e).aum_ghs =
      ((generalMetrics db s e).deposit_value_ghs).map
        (fun d => d - ((generalMetrics db s e).withdrawal_value_ghs).getD 0) ∧
    (generalMetrics db s e).aum_usd =
      ((generalMetrics db s e).deposit_value_usd).map
        (fun d => d - ((generalMetrics db s e).withdrawal_value_usd).getD 0) ∧
    (assetMetricsRow db s e g).aum_ghs =
      ((assetMetricsRow db s e g).deposit_value_ghs).map
        (fun d => d - ((assetMetricsRow db s e g).withdrawal_value_ghs).getD 0) ∧
    (assetMetricsRow db s e g).aum_usd =
      ((assetMetricsRow db s e g).deposit_value_usd).map
        (fun d => d - ((assetMetricsRow db s e g).withdrawal_value_usd).getD 0) := by
  refine ⟨?_, ?_, ?_, ?_⟩ <;> simp only [generalMetrics, assetMetricsRow]
  all_goals
    first
    | (cases h : sqlSum (((windowedRows db s e).filter
          (fun r => r.transaction_type == "deposit")).map (fun r => r.ghs_amount)) <;>
        simp [h])
    | (cases h : sqlSum (((windowedRows db s e).filter
          (fun r => r.transaction_type == "deposit")).map (fun r => r.usd_amount)) <;>
        simp [h])
    | (cases h : sqlSum (((groupRows db s e g).filter
          (fun r => r.transaction_type == "deposit")).map (fun r => r.ghs_amount)) <;>
        simp [h])
    | (cases h : sqlSum (((groupRows db s e g).filter
          (fun r => r.transaction_type == "deposit")).map (fun r => r.usd_amount)) <;>
        simp [h])

/-- Claim C5: a transaction whose metadata contains the marker
`"Monthly maintenance fee deduction"` (case-insensitively) is classified
`maintenance_fee` regardless of raw type; otherwise its effective type is
the raw `tx_type`; the `base_data` row carries the effective type; and a
`maintenance_fee`-classified row of an asset group is excluded from the
withdrawal-filtered rows while its GHS amount is summed into
`maintenance_fees_ghs`. -/
theorem c5_maintenance_fee_override :
    (∀ t : Transaction, containsCI t.metadata maintMarker = true →
      transactionTypeOf t = "maintenance_fee") ∧
    (∀ t : Transaction, containsCI t.metadata maintMarker = false →
      transactionTypeOf t = t.tx_type) ∧
    (∀ (db : DB) (t : Transaction) (r : BaseRow), baseRowOf db t = some r →
      r.transaction_type = transactionTypeOf t) ∧
    (∀ (db : DB) (s e : Nat) (g : Option String) (r : BaseRow),
      r ∈ groupRows db s e g → r.transaction_type = "maintenance_fee" →
        r ∉ (groupRows db s e g).filter (fun x => x.transaction_type == "withdrawal") ∧
        (assetMetricsRow db s e g).maintenance_fees_ghs =
          some ((((groupRows db s e g).filter
            (fun x => x.transaction_type == "maintenance_fee")).map
              (fun x => x.ghs_amount)).sum)) := by
  refine ⟨?_, ?_, ?_, ?_⟩
  · intro t h
    unfold transactionTypeOf
    rw [if_pos h]
  · intro t h
    unfold transactionTypeOf
    rw [if_neg (by simp [h])]
  · intro db t r h
    obtain ⟨u, -, -, -, -, rfl⟩ := (baseRowOf_eq_some_iff db t r).mp h
    rfl
  · intro db s e g r hr hm
    constructor
    · intro hmem
      have := (List.mem_filter.mp hmem).2
      rw [hm] at this
      simp at this
    · have hne : ((groupRows db s e g).filter
          (fun x => x.transaction_type == "maintenance_fee")).map
            (fun x => x.ghs_amount) ≠ [] := by
        have hrmem : r ∈ (groupRows db s e g).filter
            (fun x => x.transaction_type == "maintenance_fee") :=
          List.mem_filter.mpr ⟨hr, by simp [hm]⟩
        intro hnil
        rw [List.map_eq_nil_iff] at hnil
        rw [hnil] at hrmem
        cases hrmem
      have hs := sqlSum_of_ne_nil _ hne
      simpa only [assetMetricsRow] using hs

/-- Claim C5 witness: the concrete raw-`withdrawal` transaction `exTx5`
carries the marker (in different letter case), is classified
`maintenance_fee`, and its `base_data` row is excluded from the withdrawal
rows of its group while feeding `maintenance_fees_ghs`. -/
theorem c5_witness :
    transactionTypeOf exTx5 = "maintenance_fee" ∧
    (mkBaseRow exDB5 exTx5 user1 ∉ (groupRows exDB5 2 3 (some "goal savings")).filter
      (fun x => x.transaction_type == "withdrawal") ∧
    (assetMetricsRow exDB5 2 3 (some "goal savings")).maintenance_fees_ghs =
      some ((((groupRows exDB5 2 3 (some "goal savings")).filter
        (fun x => x.transaction_type == "maintenance_fee")).map
          (fun x => x.ghs_amount)).sum)) :=
  ⟨c5_maintenance_fee_override.1 exTx5 (by decide),
   c5_maintenance_fee_override.2.2.2 exDB5 2 3 (some "goal savings")
     (mkBaseRow exDB5 exTx5 user1) (by decide) (by decide)⟩

/-- Claim C6: an asset-type group whose label is not one of the configured
fee-table entries gets estimated revenue exactly `0`; the CASE expression
is total (its `ELSE` branch), so no error can arise or propagate. -/
theorem c6_unknown_label_zero_revenue (db : DB) (s e : Nat) (g : Option String)
    (h : ∀ a ∈ feeLabels, g ≠ some a) :
    (assetMetricsRow db s e g).estimated_revenue = 0 := by
  have hb : ∀ a ∈ feeLabels, (g == some a) = false := fun a ha =>
    beq_eq_false_iff_ne.mpr (h a ha)
  have h1 := hb "Arbitrage" (by simp [feeLabels])
  have h2 := hb "flex dollar savings" (by simp [feeLabels])
  have h3 := hb "Ladder Lock" (by simp [feeLabels])
  have h4 := hb "goal savings" (by simp [feeLabels])
  have h5 := hb "Risevest fixed income" (by simp [feeLabels])
  have h6 := hb "Risevest real estate" (by simp [feeLabels])
  have h7 := hb "Equity" (by simp [feeLabels])
  have h8 := hb "Mutual funds" (by simp [feeLabels])
  have h9 := hb "ETFs" (by simp [feeLabels])
  have : (assetMetricsRow db s e g).estimated_revenue =
      estimatedRevenue g (groupRows db s e g) := rfl
  rw [this]
  unfold estimatedRevenue
  simp only [h1, h2, h3, h4, h5, h6, h7, h8, h9, Bool.false_eq_true, if_false]

/-- Claim C6 witness: the label `Bitcoin` is not in the fee table, and its
group in the `exDB6` snapshot (which has a deposit on a `Bitcoin` plan)
reports estimated revenue `0`. -/
theorem c6_witness :
    (∀ a ∈ feeLabels, (some "Bitcoin" : Option String) ≠ some a) ∧
    (assetMetricsRow exDB6 2 3 (some "Bitcoin")).estimated_revenue = 0 :=
  ⟨by decide, c6_unknown_label_zero_revenue exDB6 2 3 (some "Bitcoin") (by decide)⟩

/-- Claim C9: a window with zero qualifying transactions yields the
general-metrics row with every count `0`, every sum and average absent
(`NULL`, rendered as zero by the display layer's `fmt`/`fmt_int`), and in
particular no division is ever attempted for the per-transaction averages
(`sqlAvg` only divides on a nonempty row list). -/
theorem c9_empty_window_all_zero (db : DB) (s e : Nat)
    (h : windowedRows db s e = []) :
    generalMetrics db s e =
      { asset_type_count := 0, deposit_count := 0, deposit_value_ghs := none,
        deposit_value_usd := none, withdrawal_count := 0, withdrawal_value_ghs := none,
        withdrawal_value_usd := none, aum_ghs := none, aum_usd := none,
        total_depositors := 0, total_withdrawers := 0, recurring_depositors := 0,
        new_depositors := 0, avg_deposit_value_ghs := none, avg_deposit_value_usd := none,
        avg_withdrawal_value_ghs := none, avg_withdrawal_value_usd := none } := by
  unfold generalMetrics recurringCustomers newCustomers
  rw [h]
  simp [sqlSum, sqlAvg]

/-- Claim C9 witness: the `exDB9` snapshot (whose only transaction in the
window `[2, 3]` failed) has zero qualifying rows there, and its
general-metrics row is all zeros / absent values. -/
theorem c9_witness :
    windowedRows exDB9 2 3 = [] ∧
    generalMetrics exDB9 2 3 =
      { asset_type_count := 0, deposit_count := 0, deposit_value_ghs := none,
        deposit_value_usd := none, withdrawal_count := 0, withdrawal_value_ghs := none,
        withdrawal_value_usd := none, aum_ghs := none, aum_usd := none,
        total_depositors := 0, total_withdrawers := 0, recurring_depositors := 0,
        new_depositors := 0, avg_deposit_value_ghs := none, avg_deposit_value_usd := none,
        avg_withdrawal_value_ghs := none, avg_withdrawal_value_usd := none } :=
  ⟨by decide, c9_empty_window_all_zero exDB9 2 3 (by decide)⟩

/-- Claim C1 counterexample: in `exDB1`, customer 1 has one pre-window
deposit timestamp and one in-window deposit timestamp under the window
`[2, 3]`.  The in-window distinct-timestamp count is `1`, but the
`tx_days` the code labels with is the window-unbounded count `2`, so the
customer is labelled recurring and not new — refuting the claim that the
label is driven by the in-window `tx_days`. -/
theorem c1_counterexample :
    txDays exDB1 1 = 2 ∧ specTxDaysInWindow exDB1 2 3 1 = 1 ∧
    1 ∈ recurringCustomers exDB1 2 3 ∧ 1 ∉ newCustomers exDB1 2 3 ∧
    (generalMetrics exDB1 2 3).recurring_depositors = 1 ∧
    (generalMetrics exDB1 2 3).new_depositors = 0 := by
  refine ⟨by decide, by decide, by decide, by decide, by decide, by decide⟩

/-- Claim C1 amended: the `tx_days` used by `load_general_metrics` counts
the distinct transaction timestamps among **all** of the customer's
qualifying deposits, with no window bound.  A customer with an in-window
qualifying row is labelled recurring iff they have two all-time deposits
with distinct timestamps, and new iff all their all-time deposits share a
single timestamp whose calendar day falls inside `[start, end]`; the
global first-transaction date (`first_transactions` CTE) plays no role. -/
theorem c1_amended_tx_days_is_global (db : DB) (s e c : Nat) :
    (c ∈ recurringCustomers db s e ↔
      (∃ r ∈ windowedRows db s e, r.customer_id = c) ∧
      ∃ r1 ∈ deposits db, ∃ r2 ∈ deposits db,
        r1.customer_id = c ∧ r2.customer_id = c ∧
          r1.transaction_date ≠ r2.transaction_date) ∧
    (c ∈ newCustomers db s e ↔
      (∃ r ∈ windowedRows db s e, r.customer_id = c) ∧
      ∃ fd, (∃ r ∈ deposits db, r.customer_id = c ∧ r.transaction_date = fd) ∧
        (∀ r ∈ deposits db, r.customer_id = c → r.transaction_date = fd) ∧
        s ≤ fd / secsPerDay ∧ fd / secsPerDay ≤ e) := by
  constructor
  · rw [mem_recurringCustomers_iff]
    refine and_congr_right (fun _ => ?_)
    unfold txDays
    rw [one_lt_dedup_length_iff]
    constructor
    · rintro ⟨x, hx, y, hy, hxy⟩
      obtain ⟨r1, hr1, hc1, hd1⟩ := (mem_custDepositDates_iff db c x).mp hx
      obtain ⟨r2, hr2, hc2, hd2⟩ := (mem_custDepositDates_iff db c y).mp hy
      exact ⟨r1, hr1, r2, hr2, hc1, hc2, by rw [hd1, hd2]; exact hxy⟩
    · rintro ⟨r1, hr1, r2, hr2, hc1, hc2, hne⟩
      exact ⟨r1.transaction_date, (mem_custDepositDates_iff db c _).mpr ⟨r1, hr1, hc1, rfl⟩,
        r2.transaction_date, (mem_custDepositDates_iff db c _).mpr ⟨r2, hr2, hc2, rfl⟩, hne⟩
  · rw [mem_newCustomers_iff]
    refine and_congr_right (fun _ => ?_)
    constructor
    · rintro ⟨fd, hfd, htx, hs, he⟩
      have hmem := ((minNat_eq_some_iff _ _).mp hfd).1
      unfold txDays at htx
      obtain ⟨a, -, hall⟩ := (dedup_length_eq_one_iff _).mp htx
      have hfda : fd = a := hall fd hmem
      refine ⟨fd, (mem_custDepositDates_iff db c fd).mp hmem, ?_, hs, he⟩
      intro r hr hc
      have : r.transaction_date ∈ custDepositDates db c :=
        (mem_custDepositDates_iff db c _).mpr ⟨r, hr, hc, rfl⟩
      rw [hall _ this, ← hfda]
    · rintro ⟨fd, hex, hall, hs, he⟩
      have hmem : fd ∈ custDepositDates db c := by
        obtain ⟨r, hr, hc, hd⟩ := hex
        exact (mem_custDepositDates_iff db c fd).mpr ⟨r, hr, hc, hd⟩
      have hall' : ∀ x ∈ custDepositDates db c, x = fd := by
        intro x hx
        obtain ⟨r, hr, hc, hd⟩ := (mem_custDepositDates_iff db c x).mp hx
        rw [← hd]
        exact hall r hr hc
      refine ⟨fd, ?_, ?_, hs, he⟩
      · unfold firstDepositDate
        exact (minNat_eq_some_iff _ _).mpr
          ⟨hmem, fun x hx => le_of_eq (hall' x hx).symm⟩
      · unfold txDays
        exact (dedup_length_eq_one_iff _).mpr ⟨fd, hmem, hall'⟩

/-- Claim C2 counterexample: in `exDB2`, customer 1's earliest
`status = 'success'` transaction (timestamp 100) is from the excluded
provider `Flex Dollar`.  The `first_transactions` CTE filters on status
only, so the code computes 100, while the claimed minimum over fully
qualifying transactions is 200. -/
theorem c2_counterexample :
    firstTransactionDate exDB2 1 = some 100 ∧
    specFirstTransactionDate exDB2 1 = some 200 := by
  refine ⟨by decide, by decide⟩

/-- Claim C2 amended: `first_transaction_date(customer)` equals the
minimum timestamp over **all** of the customer's transactions with
`status = 'success'` — with no window bound, but also with no restriction
or provider filter (the `first_transactions` CTE applies neither). -/
theorem c2_amended_first_transaction_date (db : DB) (c d : Nat) :
    firstTransactionDate db c = some d ↔
      (∃ t ∈ db.transactions, t.status = "success" ∧ resolvedUserId db t = some c ∧
        t.updated_at = d) ∧
      (∀ t ∈ db.transactions, t.status = "success" → resolvedUserId db t = some c →
        d ≤ t.updated_at) := by
  have hmem : ∀ x : Nat, (x ∈ db.transactions.filterMap (fun t =>
      if t.status == "success" && (resolvedUserId db t == some c) then some t.updated_at
      else none)) ↔
      ∃ t ∈ db.transactions, t.status = "success" ∧ resolvedUserId db t = some c ∧
        t.updated_at = x := by
    intro x
    rw [List.mem_filterMap]
    constructor
    · rintro ⟨t, ht, hf⟩
      by_cases hc : (t.status == "success" && (resolvedUserId db t == some c)) = true
      · rw [if_pos hc] at hf
        simp only [Bool.and_eq_true, beq_iff_eq] at hc
        exact ⟨t, ht, hc.1, hc.2, Option.some.inj hf⟩
      · rw [if_neg hc] at hf
        cases hf
    · rintro ⟨t, ht, hs, hr, rfl⟩
      exact ⟨t, ht, by rw [if_pos (by simp [hs, hr])]⟩
  unfold firstTransactionDate
  rw [minNat_eq_some_iff]
  constructor
  · rintro ⟨h1, h2⟩
    refine ⟨(hmem d).mp h1, ?_⟩
    intro t ht hs hr
    exact h2 t.updated_at ((hmem t.updated_at).mpr ⟨t, ht, hs, hr, rfl⟩)
  · rintro ⟨h1, h2⟩
    refine ⟨(hmem d).mpr h1, ?_⟩
    intro x hx
    obtain ⟨t, ht, hs, hr, rfl⟩ := (hmem x).mp hx
    exact h2 t ht hs hr

/-- Claim C3 counterexample: under the window `[2, 3]`, in `exDB3` the
recurring set is `{1}` while no deposit row is in the window (the customer
only has an in-window withdrawal), so `recurring ⊄ total_depositors`; in
`exDB3b` the new set is `{1}` (its single deposit is on day 3 but after
the midnight cutoff) while `total_depositors = 0`, so
`new ⊄ total_depositors`. -/
theorem c3_counterexample :
    1 ∈ recurringCustomers exDB3 2 3 ∧
    (windowedRows exDB3 2 3).filter (fun r => r.transaction_type == "deposit") = [] ∧
    (generalMetrics exDB3 2 3).recurring_depositors = 1 ∧
    (generalMetrics exDB3 2 3).total_depositors = 0 ∧
    1 ∈ newCustomers exDB3b 2 3 ∧
    (generalMetrics exDB3b 2 3).new_depositors = 1 ∧
    (generalMetrics exDB3b 2 3).total_depositors = 0 := by
  refine ⟨by decide, by decide, by decide, by decide, by decide, by decide, by decide⟩

/-- Claim C3 amended: for every window and every grouping the new and
recurring depositor sets are disjoint (in the `none` asset group both are
empty), but neither is in general a subset of the customers counted in
`total_depositors`. -/
theorem c3_amended_disjoint (db : DB) (s e : Nat) :
    (∀ c, c ∈ recurringCustomers db s e → c ∉ newCustomers db s e) ∧
    (∀ a c, c ∈ recurringCustomersA db s e (some a) → c ∉ newCustomersA db s e (some a)) ∧
    recurringCustomersA db s e none = [] ∧ newCustomersA db s e none = [] := by
  refine ⟨?_, ?_, rfl, rfl⟩
  · intro c hrec hnew
    have h1 := (mem_recurringCustomers_iff db s e c).mp hrec
    have h2 := (mem_newCustomers_iff db s e c).mp hnew
    obtain ⟨fd, -, htx, -, -⟩ := h2.2
    omega
  · intro a c hrec hnew
    have h1 := (mem_recurringCustomersA_iff db s e a c).mp hrec
    have h2 := (mem_newCustomersA_iff db s e a c).mp hnew
    obtain ⟨fd, -, htx, -, -⟩ := h2.2
    omega

/-- Claim C3 amended witness: in `exDB3`, customer 1 is in the recurring
set of the window `[2, 3]` and hence not in the new set. -/
theorem c3_witness :
    1 ∈ recurringCustomers exDB3 2 3 ∧ 1 ∉ newCustomers exDB3 2 3 :=
  ⟨by decide, (c3_amended_disjoint exDB3 2 3).1 1 (by decide)⟩

theorem sum_count_of_nodup {β : Type} [BEq β] [LawfulBEq β] :
    ∀ G : List β, G.Nodup → ∀ M : List β, (∀ b ∈ M, b ∈ G) →
      (G.map (fun g => M.count g)).sum = M.length := by
  intro G
  induction G with
  | nil =>
    intro _ M hM
    have : M = [] := List.eq_nil_iff_forall_not_mem.mpr (fun a ha => by
      cases hM a ha)
    simp [this]
  | cons g G' ih =>
    intro hnd M hM
    have hgG : g ∉ G' := (List.nodup_cons.mp hnd).1
    have hG' : G'.Nodup := (List.nodup_cons.mp hnd).2
    set M' := M.filter (fun b => !(b == g)) with hM'
    have hcount : ∀ h ∈ G', M.count h = M'.count h := by
      intro h hh
      have hne : h ≠ g := fun heq => hgG (heq ▸ hh)
      rw [hM', List.count_eq_countP, List.count_eq_countP, List.countP_filter]
      refine (List.countP_congr ?_).symm
      intro b _
      constructor
      · intro hb
        simp only [Bool.and_eq_true, beq_iff_eq, Bool.not_eq_true'] at hb ⊢
        exact hb.1
      · intro hb
        simp only [beq_iff_eq] at hb
        subst hb
        simp [hne]
    have hmap : (G'.map (fun h => M.count h)).sum = (G'.map (fun h => M'.count h)).sum := by
      congr 1
      exact List.map_congr_left hcount
    have hM'mem : ∀ b ∈ M', b ∈ G' := by
      intro b hb
      have hb' := List.mem_filter.mp hb
      have hbg : b ≠ g := by
        have := hb'.2
        simp only [Bool.not_eq_true', beq_eq_false_iff_ne] at this
        exact this
      rcases List.mem_cons.mp (hM b hb'.1) with h | h
      · exact absurd h hbg
      · exact h
    have hsplit : M.length = M.count g + M'.length := by
      rw [List.count_eq_countP, List.countP_eq_length_filter, hM']
      exact List.length_eq_length_filter_add (fun b => b == g)
    rw [List.map_cons, List.sum_cons, hmap, ih hG' M' hM'mem, hsplit]

/-- Claim C7 counterexample: in `exDB7` the in-window qualifying deposit
is linked to an investment plan with no asset, so its asset-type label is
absent — and the asset-partitioned result of `load_asset_metrics` contains
exactly one row, whose label is absent, contradicting the claim that such
rows are excluded from the asset-partitioned output. -/
theorem c7_counterexample :
    (assetMetricsSorted exDB7 2 3).map (fun row => row.asset_type) = [none] ∧
    (windowedRows exDB7 2 3).map (fun r => r.asset_type) = [none] ∧
    (generalMetrics exDB7 2 3).deposit_count = 1 := by
  refine ⟨by decide, by decide, by decide⟩

/-- Claim C7 amended: rows with an absent asset-type label are *not*
excluded from the asset-partitioned result set — they form their own group
row with label `NULL` (only the asset-type *listing* used by the UI
selector excludes the absent label) — and they still contribute to the
unpartitioned totals: the unpartitioned deposit count is the sum of the
per-group deposit counts over all groups, the `none` group included. -/
theorem c7_amended_null_group (db : DB) (s e : Nat) :
    ((generalMetrics db s e).deposit_count =
      ((assetMetrics db s e).map (fun row => row.deposit_count)).sum) ∧
    (∀ r ∈ windowedRows db s e, r.asset_type = none →
      ∃ row ∈ assetMetricsSorted db s e, row.asset_type = none) := by
  constructor
  · have hproj : (assetMetrics db s e).map (fun row => row.deposit_count) =
        (assetGroups db s e).map (fun g =>
          ((windowedRows db s e).filter (fun r =>
            r.transaction_type == "deposit" && r.asset_type == g)).length) := by
      unfold assetMetrics
      rw [List.map_map]
      refine List.map_congr_left (fun g _ => ?_)
      rw [Function.comp_apply, assetMetricsRow_deposit_count]
      unfold groupRows
      rw [List.filter_filter]
    rw [hproj]
    have hcomm : ∀ g, ((windowedRows db s e).filter (fun r =>
        r.transaction_type == "deposit" && r.asset_type == g)).length =
        (((windowedRows db s e).filter (fun r =>
          r.transaction_type == "deposit")).map (fun r => r.asset_type)).count g := by
      intro g
      rw [List.count_eq_countP, List.countP_map, List.countP_filter,
        ← List.countP_eq_length_filter]
      refine List.countP_congr (fun r _ => ?_)
      cases hd : (r.transaction_type == "deposit") <;>
        cases hl : (r.asset_type == g) <;>
        simp [hd, hl, Function.comp]
    have hmap2 : (assetGroups db s e).map (fun g =>
        ((windowedRows db s e).filter (fun r =>
          r.transaction_type == "deposit" && r.asset_type == g)).length) =
        (assetGroups db s e).map (fun g =>
          (((windowedRows db s e).filter (fun r =>
            r.transaction_type == "deposit")).map (fun r => r.asset_type)).count g) :=
      List.map_congr_left (fun g _ => hcomm g)
    rw [hmap2]
    have hres := sum_count_of_nodup (assetGroups db s e) (List.nodup_dedup _)
      (((windowedRows db s e).filter (fun r =>
        r.transaction_type == "deposit")).map (fun r => r.asset_type))
      (by
        intro b hb
        obtain ⟨r, hr, rfl⟩ := List.mem_map.mp hb
        exact List.mem_dedup.mpr
          (List.mem_map.mpr ⟨r, (List.mem_filter.mp hr).1, rfl⟩))
    rw [hres, List.length_map]
    rfl
  · intro r hr hnone
    have hg : (none : Option String) ∈ assetGroups db s e :=
      List.mem_dedup.mpr (List.mem_map.mpr ⟨r, hr, hnone⟩)
    refine ⟨assetMetricsRow db s e none, ?_, rfl⟩
    exact (List.perm_insertionSort assetRowLe (assetMetrics db s e)).mem_iff.mpr
      (List.mem_map_of_mem (assetMetricsRow db s e) hg)

/-- Claim C7 amended witness: in `exDB7` the absent-label row of the
window `[2, 3]` produces a `NULL`-labelled group row in the result set. -/
theorem c7_witness :
    ∃ row ∈ assetMetricsSorted exDB7 2 3, row.asset_type = none :=
  (c7_amended_null_group exDB7 2 3).2
    (mkBaseRow exDB7
      { id := 1, tx_type := "deposit", metadata := "", amount := 100, usd_amount := 10,
        updated_at := 172900, status := "success", provider_number := "MTN",
        plan_id := none, investment_plan_id := some 1 } user1)
    (by decide) (by decide)

/-- Claim C8 counterexample: `exTx8` is an in-window qualifying
transaction with raw type `withdrawal` whose metadata contains the
maintenance-fee marker, so its effective type is `maintenance_fee`; the
trend point produced for it nevertheless carries `withdrawal` —
`load_transaction_trend` groups by the raw `t.tx_type` and applies no
maintenance-fee override. -/
theorem c8_counterexample :
    (trendPoints exDB8 2 3 (fun n => n)).map (fun p => (p.period, p.tx_type)) =
      [(172900, "withdrawal")] ∧
    transactionTypeOf exTx8 = "maintenance_fee" ∧
    exTx8.tx_type = "withdrawal" ∧ exTx8 ∈ exDB8.transactions := by
  refine ⟨by decide, by decide, by decide, by decide⟩

/-- Claim C8 amended: for every window and every bucketing function
(standing for `DATE_TRUNC` at day/week/month granularity), the trend
output is ordered ascending by period, and each point carries the **raw**
recorded `tx_type` (not the effective type) of some qualifying in-window
transaction together with the sum of `t.amount` over the transactions of
that period and raw type. -/
theorem c8_amended_trend_raw_type (db : DB) (s e : Nat) (trunc : Nat → Nat) :
    List.Pairwise trendLe (trendPoints db s e trunc) ∧
    ∀ pt ∈ trendPoints db s e trunc,
      (∃ en ∈ trendEntries db s e trunc, en.1 = pt.period ∧ en.2.1 = pt.tx_type) ∧
      pt.total_amount =
        (((trendEntries db s e trunc).filter
          (fun en => en.1 == pt.period && en.2.1 == pt.tx_type)).map
            (fun en => en.2.2)).sum := by
  constructor
  · exact List.sorted_insertionSort trendLe _
  · intro pt hpt
    have hpt' : pt ∈ ((trendEntries db s e trunc).map
        (fun en => (en.1, en.2.1))).dedup.map (fun k =>
          ({ period := k.1, tx_type := k.2,
             total_amount := (((trendEntries db s e trunc).filter
               (fun en => en.1 == k.1 && en.2.1 == k.2)).map
                 (fun en => en.2.2)).sum } : TrendPoint)) :=
      (List.perm_insertionSort trendLe _).mem_iff.mp hpt
    obtain ⟨k, hk, rfl⟩ := List.mem_map.mp hpt'
    obtain ⟨en, hen, hk'⟩ := List.mem_map.mp (List.mem_dedup.mp hk)
    refine ⟨⟨en, hen, ?_, ?_⟩, rfl⟩
    · show en.1 = k.1
      rw [← hk']
    · show en.2.1 = k.2
      rw [← hk']

/-- Claim C8 amended witness: the single trend point of `exDB8` under the
identity bucketing exists in the output, carries the raw type of the entry
that produced it, and totals the matching entries. -/
theorem c8_witness :
    ∃ en ∈ trendEntries exDB8 2 3 (fun n => n),
      en.1 = (172900 : Nat) ∧ en.2.1 = "withdrawal" :=
  ((c8_amended_trend_raw_type exDB8 2 3 (fun n => n)).2
    { period := 172900, tx_type := "withdrawal",
      total_amount := (((trendEntries exDB8 2 3 (fun n => n)).filter
        (fun en => en.1 == 172900 && en.2.1 == "withdrawal")).map
          (fun en => en.2.2)).sum }
    (by
      refine (List.perm_insertionSort trendLe _).mem_iff.mpr ?_
      exact List.mem_map.mpr ⟨(172900, "withdrawal"), by decide, rfl⟩)).1

/-- Claim C10: every non-absent asset-type label appearing in the
asset-metrics result also appears in the `get_asset_types` listing — the
listing filters only on `status = 'success'` and the window, a predicate
weaker than the asset-metrics one (which additionally requires an
unrestricted resolved user and a non-excluded provider) — while the
converse fails: in `exDB10` a restricted user's `Equity` deposit is listed
by `get_asset_types` but produces no asset-metrics row at all. -/
theorem c10_metrics_labels_in_listing :
    (∀ (db : DB) (s e : Nat) (row : AssetRow), row ∈ assetMetricsSorted db s e →
      ∀ a, row.asset_type = some a → a ∈ getAssetTypes db s e) ∧
    ("Equity" ∈ getAssetTypes exDB10 2 3 ∧ assetMetricsSorted exDB10 2 3 = []) := by
  constructor
  · intro db s e row hrow a ha
    have hrow' : row ∈ assetMetrics db s e :=
      (List.perm_insertionSort assetRowLe _).mem_iff.mp hrow
    obtain ⟨g, hg, rfl⟩ := List.mem_map.mp hrow'
    rw [assetMetricsRow_asset_type] at ha
    subst ha
    obtain ⟨r, hr, hlab⟩ := List.mem_map.mp (List.mem_dedup.mp hg)
    obtain ⟨hbase, hws, hwe⟩ := (mem_windowedRows_iff db s e r).mp hr
    obtain ⟨t, ht, hrow2⟩ := (mem_baseData_iff db r).mp hbase
    obtain ⟨u, -, hs, -, -, rfl⟩ := (baseRowOf_eq_some_iff db t r).mp hrow2
    unfold getAssetTypes
    refine List.mem_dedup.mpr (List.mem_filterMap.mpr ⟨t, ht, ?_⟩)
    have hcond : (t.status == "success" && decide (s * secsPerDay ≤ t.updated_at) &&
        decide (t.updated_at ≤ e * secsPerDay)) = true := by
      have h1 : (t.status == "success") = true := by simp [hs]
      have h2 : decide (s * secsPerDay ≤ t.updated_at) = true :=
        decide_eq_true hws
      have h3 : decide (t.updated_at ≤ e * secsPerDay) = true :=
        decide_eq_true hwe
      rw [h1, h2, h3]
      rfl
    rw [if_pos hcond]
    exact hlab
  · exact ⟨by decide, by decide⟩

/-- Claim C10 witness: the `Bitcoin` label of the asset-metrics row in
`exDB6` is found by the listing. -/
theorem c10_witness : "Bitcoin" ∈ getAssetTypes exDB6 2 3 :=
  c10_metrics_labels_in_listing.1 exDB6 2 3
    (assetMetricsRow exDB6 2 3 (some "Bitcoin"))
    ((List.perm_insertionSort assetRowLe (assetMetrics exDB6 2 3)).mem_iff.mpr
      (List.mem_map_of_mem (assetMetricsRow exDB6 2 3) (by decide)))
    "Bitcoin" rfl

end FinDash
